import Mathlib

/-!
Shallow embedding of the Amazon Live programming-strategy pipeline
(src/generate_pivot_tables.py and src/generate_programming_strategy.py).

DataFrames are modelled as lists of records; dynamic column presence is
modelled by Boolean presence flags at the table level; pandas float cells
are modelled by `PFloat` (an exact rational tagged with the IEEE special
values that pandas division can produce); random draws are modelled by
explicit parameter functions carrying the documented bounds.
-/

namespace AmazonLive

/-- A pandas float cell: a finite rational, plus the IEEE special values
that show up through division (`x / 0`). -/
inductive PFloat
  | fin (q : ℚ)
  | posInf
  | negInf
  | nan
deriving DecidableEq, Repr

/-- Division of float cells as pandas performs it elementwise:
`a / 0` is `±Inf` for `a ≠ 0`, `0 / 0` is `NaN`, otherwise exact. -/
def pdiv : PFloat → PFloat → PFloat
  | .fin a, .fin b =>
      if b = 0 then (if a = 0 then .nan else if 0 < a then .posInf else .negInf)
      else .fin (a / b)
  | _, _ => .nan

/-- `Series.fillna d`: replaces `NaN` (and only `NaN` — not `±Inf`). -/
def PFloat.fillna (d : ℚ) : PFloat → PFloat
  | .nan => .fin d
  | x => x

/-- A cell is an ordinary finite number (not `NaN`, not `±Inf`). -/
def PFloat.isFinite : PFloat → Bool
  | .fin _ => true
  | _ => false

/-- The four time slots used throughout both scripts. -/
inductive TimeSlot
  | Morning
  | Afternoon
  | Evening
  | Night
deriving DecidableEq, Repr

/-- `map_to_time_slot` (generate_pivot_tables.py, lines 226-234):
6–11 → Morning, 12–17 → Afternoon, 18–21 → Evening, else Night. -/
def map_to_time_slot (hour : ℤ) : TimeSlot :=
  if 6 ≤ hour ∧ hour < 12 then .Morning
  else if 12 ≤ hour ∧ hour < 18 then .Afternoon
  else if 18 ≤ hour ∧ hour < 22 then .Evening
  else .Night

/-- The hours of the day (0–23) that `map_to_time_slot` sends to slot `s`. -/
def slotHours (s : TimeSlot) : Finset ℕ :=
  (Finset.range 24).filter (fun h => map_to_time_slot h = s)

/-- C1 counterexample: the claim asserts hour 20 maps to "Night", but
`map_to_time_slot 20` is "Evening" (the code's Evening bucket is [18, 22)). -/
theorem map_to_time_slot_at_20_is_evening :
    map_to_time_slot 20 = TimeSlot.Evening ∧ map_to_time_slot 20 ≠ TimeSlot.Night := by
  decide

/-- C1 (amended): hour 13 maps to Afternoon, hour 4 maps to Night, and
hour 20 maps to Evening under the code's 6/12/18/22 boundaries. -/
theorem map_to_time_slot_spot_values :
    map_to_time_slot 13 = TimeSlot.Afternoon ∧
    map_to_time_slot 4 = TimeSlot.Night ∧
    map_to_time_slot 20 = TimeSlot.Evening := by
  decide

/-- C8: the four time-slot buckets are a total partition of the 24 hours of
the day: every bucket is non-empty, the buckets are pairwise disjoint
(their cardinalities sum to 24), and their union is all of [0, 24). -/
theorem time_slot_partition :
    slotHours TimeSlot.Morning ∪ slotHours TimeSlot.Afternoon ∪
      slotHours TimeSlot.Evening ∪ slotHours TimeSlot.Night = Finset.range 24 ∧
    (slotHours TimeSlot.Morning).card + (slotHours TimeSlot.Afternoon).card +
      (slotHours TimeSlot.Evening).card + (slotHours TimeSlot.Night).card = 24 ∧
    (slotHours TimeSlot.Morning).Nonempty ∧ (slotHours TimeSlot.Afternoon).Nonempty ∧
    (slotHours TimeSlot.Evening).Nonempty ∧ (slotHours TimeSlot.Night).Nonempty := by
  decide

/-- The exception classes caught by `safe_pivot_access`
(generate_programming_strategy.py, line 78). -/
inductive PyErr
  | keyError
  | typeError
  | indexError
  | valueError
deriving DecidableEq, Repr

/-- A pivot table as the strategy script reads it back: rows labelled by an
index value, each row an association list from column label to cell. -/
structure PivotTable where
  rows : List (String × List (String × ℚ))
deriving Repr

/-- `pivot_table.loc[index, column]`: raises `KeyError` when the index or
the column is absent, returns the cell otherwise. -/
def pivotLoc (t : PivotTable) (index column : String) : Except PyErr ℚ :=
  match t.rows.find? (fun r => r.1 = index) with
  | none => .error .keyError
  | some r =>
      match r.2.find? (fun c => c.1 = column) with
      | none => .error .keyError
      | some c => .ok c.2

/-- `safe_pivot_access` (generate_programming_strategy.py, lines 63-79):
try the `.loc` lookup, catch KeyError/TypeError/IndexError/ValueError and
return the supplied default. -/
def safe_pivot_access (t : PivotTable) (index column : String) (default : ℚ) : ℚ :=
  match pivotLoc t index column with
  | .ok v => v
  | .error .keyError => default
  | .error .typeError => default
  | .error .indexError => default
  | .error .valueError => default

/-- C10: `safe_pivot_access` returns the looked-up element whenever the
`.loc` lookup succeeds, and returns the supplied default whenever the lookup
raises any of KeyError, TypeError, IndexError, ValueError; in particular it
never propagates one of those four exceptions (its result is a plain value). -/
theorem safe_pivot_access_spec (t : PivotTable) (index column : String) (default : ℚ) :
    (∀ v, pivotLoc t index column = .ok v →
      safe_pivot_access t index column default = v) ∧
    (∀ e, pivotLoc t index column = .error e →
      safe_pivot_access t index column default = default) := by
  constructor
  · intro v hv
    simp [safe_pivot_access, hv]
  · intro e he
    cases e <;> simp [safe_pivot_access, he]

/-- Concrete instance of `safe_pivot_access_spec`: a successful lookup and a
failing lookup on an explicit one-row table. -/
theorem safe_pivot_access_spec_witness :
    safe_pivot_access ⟨[("Beauty", [("Morning", 3)])]⟩ "Beauty" "Morning" 0 = 3 ∧
    safe_pivot_access ⟨[("Beauty", [("Morning", 3)])]⟩ "Gaming" "Morning" 7 = 7 :=
  ⟨(safe_pivot_access_spec ⟨[("Beauty", [("Morning", 3)])]⟩ "Beauty" "Morning" 0).1 3 rfl,
   (safe_pivot_access_spec ⟨[("Beauty", [("Morning", 3)])]⟩ "Gaming" "Morning" 7).2
     PyErr.keyError rfl⟩

/-- Scan of the cross-promotion pivot collecting every (row, column, value)
entry with a strictly positive value (generate_programming_strategy.py,
lines 544-553: the regular-columns loop appending pairs with `value > 0`). -/
def collectPositivePairs (t : PivotTable) : List (String × String × ℚ) :=
  t.rows.foldr (fun r acc =>
    ((r.2.filter (fun c => 0 < c.2)).map (fun c => (r.1, c.1, c.2))) ++ acc) []

/-- All unordered pairs `(cats[i], cats[j])` with `i < j`, in the nested-loop
order of the fallback (lines 559-561 and 576-578). -/
def unorderedPairs (cats : List String) : List (String × String) :=
  match cats with
  | [] => []
  | c :: rest => rest.map (fun d => (c, d)) ++ unorderedPairs rest

/-- Descending order on pair strength, the key order of
`pairs.sort(key=lambda x: x[2], reverse=True)` (line 564). -/
def strengthGE (a b : String × String × ℚ) : Prop := b.2.2 ≤ a.2.2

instance : DecidableRel strengthGE := fun a b =>
  inferInstanceAs (Decidable (b.2.2 ≤ a.2.2))

/-- Cross-promotion pair generation (generate_programming_strategy.py,
lines 524-590): with a cross-promotion table present, collect the positive
co-occurrence entries; if none are found, fall back to all unordered pairs
among the top categories with random strengths; sort by strength descending
and keep the top 10 as (category, category) pairs. Without the table, emit
the unordered fallback pairs directly (first 10). -/
def cross_promotion_pairs (crossPromo : Option PivotTable) (topCategories : List String)
    (randStrength : ℕ → ℚ) : List (String × String) :=
  match crossPromo with
  | some t =>
      ((List.insertionSort strengthGE
          (if (collectPositivePairs t).isEmpty then
            (unorderedPairs topCategories).enum.map
              (fun p => (p.2.1, p.2.2, randStrength p.1))
          else collectPositivePairs t)).take 10).map (fun p => (p.1, p.2.1))
  | none => (unorderedPairs topCategories).take 10

theorem unorderedPairs_ne_nil (cats : List String) (h : 2 ≤ cats.length) :
    unorderedPairs cats ≠ [] := by
  match cats with
  | [] => simp at h
  | [c] => simp at h
  | c :: d :: rest => simp [unorderedPairs]

/-- C6: whenever at least two top categories exist, cross-promotion pair
generation returns a non-empty list — the unordered-pair fallback guarantees
this even when no positive co-occurrence entry is found in the data, and when
the cross-promotion table is absent altogether. -/
theorem cross_promotion_pairs_ne_nil (crossPromo : Option PivotTable)
    (topCategories : List String) (randStrength : ℕ → ℚ)
    (h : 2 ≤ topCategories.length) :
    cross_promotion_pairs crossPromo topCategories randStrength ≠ [] := by
  have hu : unorderedPairs topCategories ≠ [] := unorderedPairs_ne_nil topCategories h
  have key : ∀ ps : List (String × String × ℚ), ps ≠ [] →
      ((List.insertionSort strengthGE ps).take 10).map (fun p => (p.1, p.2.1)) ≠ [] := by
    intro ps hps hcontra
    rw [List.map_eq_nil_iff] at hcontra
    rcases List.take_eq_nil_iff.mp hcontra with h10 | hnil
    · exact absurd h10 (by decide)
    · have hlen := congrArg List.length hnil
      rw [List.length_insertionSort] at hlen
      exact hps (List.length_eq_zero.mp hlen)
  match crossPromo with
  | none =>
      simp only [cross_promotion_pairs]
      intro hcontra
      rcases List.take_eq_nil_iff.mp hcontra with h10 | hnil
      · exact absurd h10 (by decide)
      · exact hu hnil
  | some t =>
      have hfall : (unorderedPairs topCategories).enum.map
          (fun p => (p.2.1, p.2.2, randStrength p.1)) ≠ [] := by
        intro hnil
        rw [List.map_eq_nil_iff] at hnil
        have hlen := congrArg List.length hnil
        rw [List.enum_length] at hlen
        exact hu (List.length_eq_zero.mp hlen)
      simp only [cross_promotion_pairs]
      by_cases hp : (collectPositivePairs t).isEmpty = true
      · rw [if_pos hp]
        exact key _ hfall
      · rw [if_neg hp]
        refine key _ ?_
        intro hnil
        rw [hnil] at hp
        exact hp rfl

/-- Concrete instance of `cross_promotion_pairs_ne_nil`: a cross-promotion
table with no positive entry and two top categories still yields pairs. -/
theorem cross_promotion_pairs_ne_nil_witness :
    cross_promotion_pairs (some ⟨[("Beauty", [("Electronics", 0)])]⟩)
      ["Beauty", "Electronics"] (fun _ => 1) ≠ [] :=
  cross_promotion_pairs_ne_nil (some ⟨[("Beauty", [("Electronics", 0)])]⟩)
    ["Beauty", "Electronics"] (fun _ => 1) (by decide)

/-- A creator record (creators DataFrame columns used by the pivot script). -/
structure Creator where
  creator_id : ℕ
  creator_name : String
  creator_tier : String
  creator_category : String
deriving DecidableEq, Repr

/-- Tier lookup (generate_pivot_tables.py, lines 439-441): the creator's
tier when the id is known, "Unknown" otherwise. -/
def lookupTier (creators : List Creator) (cid : ℕ) : String :=
  match creators.find? (fun c => c.creator_id = cid) with
  | some c => c.creator_tier
  | none => "Unknown"

/-- Name lookup (lines 444-446): the creator's name when the id is known,
"Creator-<id>" otherwise. -/
def lookupName (creators : List Creator) (cid : ℕ) : String :=
  match creators.find? (fun c => c.creator_id = cid) with
  | some c => c.creator_name
  | none => "Creator-" ++ toString cid

/-- A sessions-table row. Every column has a slot; whether a column actually
exists in the table is recorded by the presence flags on `SessionsTable`. -/
structure SessionRow where
  creator_id : ℕ
  time_slot : String
  day_of_week : String
  category : String
  revenue : ℚ
  duration_minutes : ℚ
  views : ℚ
  unique_viewers : ℚ
  likes : ℚ
  comments : ℚ
  engagement_rate : PFloat
  conversion_rate : ℚ
deriving DecidableEq, Repr

/-- A sessions table: presence flags for the dynamically-probed columns
(the `if 'col' in df.columns` checks) plus the rows. -/
structure SessionsTable where
  hasRevenue : Bool
  hasDuration : Bool
  hasViews : Bool
  hasUniqueViewers : Bool
  hasLikes : Bool
  hasComments : Bool
  hasEngagementRate : Bool
  hasConversionRate : Bool
  hasCategory : Bool
  hasProductCategory : Bool
  hasTimeSlot : Bool
  hasDayOfWeek : Bool
  rows : List SessionRow
deriving DecidableEq, Repr

/-- The engagement-rate backfill at the top of
`create_creator_performance_pivot_tables` (lines 429-437): when the column is
absent it is computed as `((likes + comments) / views).fillna(0)` if likes,
comments and views all exist, and set to the constant 0.05 otherwise.
Note `fillna(0)` replaces only `NaN` (the 0/0 case); a zero-views row with a
non-zero numerator yields `±Inf`, which `fillna` leaves in place. -/
def fillEngagementRate (t : SessionsTable) : SessionsTable :=
  if t.hasEngagementRate then t
  else if t.hasLikes && t.hasComments && t.hasViews then
    { t with
      hasEngagementRate := true,
      rows := t.rows.map (fun r =>
        { r with engagement_rate :=
            (pdiv (.fin (r.likes + r.comments)) (.fin r.views)).fillna 0 }) }
  else
    { t with
      hasEngagementRate := true,
      rows := t.rows.map (fun r => { r with engagement_rate := .fin (1 / 20) }) }

/-- A one-row sessions table used as concrete input: likes 1, comments 0,
views 0, engagement_rate column absent. -/
def zeroViewsTable : SessionsTable :=
  { hasRevenue := true, hasDuration := true, hasViews := true,
    hasUniqueViewers := false, hasLikes := true, hasComments := true,
    hasEngagementRate := false, hasConversionRate := true,
    hasCategory := false, hasProductCategory := false,
    hasTimeSlot := true, hasDayOfWeek := true,
    rows := [{ creator_id := 1, time_slot := "Morning", day_of_week := "Monday",
               category := "", revenue := 50, duration_minutes := 30,
               views := 0, unique_viewers := 0, likes := 1, comments := 0,
               engagement_rate := .fin 0, conversion_rate := 0 }] }

/-- C4 counterexample: on a session with likes 1, comments 0 and views 0, the
computed engagement rate is `+Inf`, not 0 — `fillna(0)` replaces only the
`NaN` produced by 0/0, not the `Inf` produced by a positive numerator. -/
theorem engagement_rate_zero_views_not_zero :
    (fillEngagementRate zeroViewsTable).rows.map SessionRow.engagement_rate
        = [PFloat.posInf] ∧
    PFloat.posInf ≠ PFloat.fin 0 := by
  refine ⟨?_, by decide⟩
  norm_num [fillEngagementRate, zeroViewsTable, pdiv, PFloat.fillna]

/-- C4 (amended): when the engagement_rate column is absent and likes,
comments and views are present, each session's engagement rate is
`(likes + comments) / views`; a 0/0 division is replaced by 0 via `fillna`,
but a zero-views row with a non-zero numerator yields `±Inf`. -/
theorem engagement_rate_fill_spec (t : SessionsTable)
    (h0 : t.hasEngagementRate = false) (h1 : t.hasLikes = true)
    (h2 : t.hasComments = true) (h3 : t.hasViews = true) :
    (fillEngagementRate t).hasEngagementRate = true ∧
    (fillEngagementRate t).rows.map SessionRow.engagement_rate =
      t.rows.map (fun r =>
        if r.views = 0 then
          (if r.likes + r.comments = 0 then PFloat.fin 0
           else if 0 < r.likes + r.comments then PFloat.posInf else PFloat.negInf)
        else PFloat.fin ((r.likes + r.comments) / r.views)) := by
  constructor
  · simp [fillEngagementRate, h0, h1, h2, h3]
  · simp only [fillEngagementRate, h0, h1, h2, h3, Bool.false_eq_true, if_false,
      Bool.and_self, if_true, List.map_map]
    refine List.map_congr_left ?_
    intro r _
    simp only [Function.comp]
    by_cases hv : r.views = 0
    · by_cases hn : r.likes + r.comments = 0
      · simp [pdiv, PFloat.fillna, hv, hn]
      · by_cases hpos : 0 < r.likes + r.comments
        · simp [pdiv, PFloat.fillna, hv, hn, hpos]
        · simp [pdiv, PFloat.fillna, hv, hn, hpos]
    · simp [pdiv, PFloat.fillna, hv]

/-- Concrete instance of `engagement_rate_fill_spec` on `zeroViewsTable`. -/
theorem engagement_rate_fill_spec_witness :
    (fillEngagementRate zeroViewsTable).hasEngagementRate = true ∧
    (fillEngagementRate zeroViewsTable).rows.map SessionRow.engagement_rate =
      zeroViewsTable.rows.map (fun r =>
        if r.views = 0 then
          (if r.likes + r.comments = 0 then PFloat.fin 0
           else if 0 < r.likes + r.comments then PFloat.posInf else PFloat.negInf)
        else PFloat.fin ((r.likes + r.comments) / r.views)) :=
  engagement_rate_fill_spec zeroViewsTable rfl rfl rfl rfl

/-- The aggregation operations appearing in the scripts' agg dictionaries. -/
inductive AggOp
  | sum
  | mean
deriving DecidableEq, Repr

/-- Float-cell addition (summing a metric column). -/
def padd : PFloat → PFloat → PFloat
  | .nan, _ => .nan
  | _, .nan => .nan
  | .posInf, .negInf => .nan
  | .negInf, .posInf => .nan
  | .posInf, _ => .posInf
  | _, .posInf => .posInf
  | .negInf, _ => .negInf
  | _, .negInf => .negInf
  | .fin a, .fin b => .fin (a + b)

def pfSum (l : List PFloat) : PFloat := l.foldr padd (.fin 0)

/-- An aggregation op applied over a group's column. -/
def aggValue : AggOp → List PFloat → PFloat
  | .sum, l => pfSum l
  | .mean, l => pdiv (pfSum l) (.fin l.length)

/-- The value of a named metric column in a session row. -/
def metricValue (name : String) (r : SessionRow) : PFloat :=
  if name = "revenue" then .fin r.revenue
  else if name = "duration_minutes" then .fin r.duration_minutes
  else if name = "views" then .fin r.views
  else if name = "unique_viewers" then .fin r.unique_viewers
  else if name = "likes" then .fin r.likes
  else if name = "comments" then .fin r.comments
  else if name = "engagement_rate" then r.engagement_rate
  else if name = "conversion_rate" then .fin r.conversion_rate
  else .nan

/-- One output row of a group-by: the key and the aggregated columns. -/
structure AggRow (κ : Type) where
  key : κ
  vals : List (String × PFloat)
deriving DecidableEq, Repr

/-- `df.groupby(keys).agg(agg_dict)`: one output row per distinct key
combination, each aggregated column computed over that group's rows. -/
def groupAgg {κ : Type} [DecidableEq κ] (key : SessionRow → κ)
    (aggDict : List (String × AggOp)) (rows : List SessionRow) : List (AggRow κ) :=
  ((rows.map key).dedup).map (fun k =>
    { key := k,
      vals := aggDict.map (fun m =>
        (m.1, aggValue m.2 ((rows.filter (fun r => key r = k)).map (metricValue m.1)))) })

def lookupVal (vals : List (String × PFloat)) (name : String) : PFloat :=
  match vals.find? (fun v => v.1 = name) with
  | some v => v.2
  | none => .nan

/-- The rpm derivation of the creator tables (generate_pivot_tables.py,
lines 470-474, 486-489, 498-502): `revenue / duration_minutes` when both
summed columns are present, otherwise a `np.random.uniform(5, 50)` draw per
row. No guard against a zero summed duration. -/
def addRpm {κ : Type} (hasRev hasDur : Bool) (rand : ℕ → ℚ)
    (rows : List (AggRow κ)) : List (AggRow κ × PFloat) :=
  if hasRev && hasDur then
    rows.map (fun g =>
      (g, pdiv (lookupVal g.vals "revenue") (lookupVal g.vals "duration_minutes")))
  else
    rows.enum.map (fun p => (p.2, .fin (rand p.1)))

/-- The rpm derivation of the category and time-slot tables (lines 563-566,
574-576, 584-586, 674-676, 692-694): computed only when both columns are
present, with no random fallback (the column is simply absent otherwise). -/
def addRpmOpt {κ : Type} (hasRev hasDur : Bool)
    (rows : List (AggRow κ)) : List (AggRow κ × Option PFloat) :=
  if hasRev && hasDur then
    rows.map (fun g =>
      (g, some (pdiv (lookupVal g.vals "revenue") (lookupVal g.vals "duration_minutes"))))
  else
    rows.map (fun g => (g, none))

/-- Descending comparison on float cells as `sort_values(col, ascending=False)`
orders rows: +Inf first, then finite values decreasing, then -Inf; NaN last. -/
def pdescLE : PFloat → PFloat → Bool
  | _, .nan => true
  | .nan, _ => false
  | .posInf, _ => true
  | _, .posInf => false
  | .fin a, .fin b => decide (b ≤ a)
  | .fin _, .negInf => true
  | .negInf, .fin _ => false
  | .negInf, .negInf => true

/-- The row order of `sort_values('rpm', ascending=False)`. -/
def rpmOrd {κ : Type} (a b : AggRow κ × PFloat) : Prop := pdescLE a.2 b.2 = true

instance {κ : Type} : DecidableRel (@rpmOrd κ) := fun a b =>
  inferInstanceAs (Decidable (pdescLE a.2 b.2 = true))

theorem pdescLE_total (a b : PFloat) : pdescLE a b = true ∨ pdescLE b a = true := by
  cases a <;> cases b <;> simp [pdescLE] <;> exact le_total _ _

theorem pdescLE_trans (a b c : PFloat) (h1 : pdescLE a b = true)
    (h2 : pdescLE b c = true) : pdescLE a c = true := by
  cases a <;> cases b <;> cases c <;> simp_all [pdescLE] <;> exact le_trans h2 h1

instance {κ : Type} : IsTotal (AggRow κ × PFloat) rpmOrd :=
  ⟨fun a b => pdescLE_total a.2 b.2⟩

instance {κ : Type} : IsTrans (AggRow κ × PFloat) rpmOrd :=
  ⟨fun a b c h1 h2 => pdescLE_trans a.2 b.2 c.2 h1 h2⟩

/-- The creator-tables aggregation dictionary (lines 448-465): sums for the
volume metrics, means for engagement_rate and conversion_rate, each entry
present only when the column is. -/
def creatorAggDict (t : SessionsTable) : List (String × AggOp) :=
  (if t.hasRevenue then [("revenue", AggOp.sum)] else []) ++
  (if t.hasDuration then [("duration_minutes", AggOp.sum)] else []) ++
  (if t.hasViews then [("views", AggOp.sum)] else []) ++
  (if t.hasUniqueViewers then [("unique_viewers", AggOp.sum)] else []) ++
  (if t.hasLikes then [("likes", AggOp.sum)] else []) ++
  (if t.hasComments then [("comments", AggOp.sum)] else []) ++
  (if t.hasEngagementRate then [("engagement_rate", AggOp.mean)] else []) ++
  (if t.hasConversionRate then [("conversion_rate", AggOp.mean)] else [])

/-- The category/time-slot aggregation dictionary (lines 538-553, 649-664):
same shape but with no engagement_rate entry. -/
def metricAggDict (t : SessionsTable) : List (String × AggOp) :=
  (if t.hasRevenue then [("revenue", AggOp.sum)] else []) ++
  (if t.hasDuration then [("duration_minutes", AggOp.sum)] else []) ++
  (if t.hasViews then [("views", AggOp.sum)] else []) ++
  (if t.hasUniqueViewers then [("unique_viewers", AggOp.sum)] else []) ++
  (if t.hasLikes then [("likes", AggOp.sum)] else []) ++
  (if t.hasComments then [("comments", AggOp.sum)] else []) ++
  (if t.hasConversionRate then [("conversion_rate", AggOp.mean)] else [])

/-- The tables written by `create_creator_performance_pivot_tables`. -/
structure CreatorOutputs where
  creator_category_perf : List (AggRow (String × String × String) × PFloat)
  creator_time_perf : List (AggRow (String × String × String × String) × PFloat)
  top_creators : Option (List (AggRow (String × String) × PFloat))
deriving Repr

/-- `create_creator_performance_pivot_tables` (lines 411-514): backfills
engagement_rate, attaches creator tier and name by id lookup, aggregates by
(tier, name, time_slot), by (tier, name, day_of_week, time_slot) and by
(tier, name); always adds an rpm column (computed, or a random [5, 50) draw
per row as fallback). Only the top_creators table is guarded by
`len(agg_dict) > 0`; it is sorted descending by rpm (the rpm column is always
present, so the sort-by-revenue branch of lines 509-510 is unreachable).
The three uniform draws are separate, hence three parameters. -/
def create_creator_performance_pivot_tables (creators : List Creator)
    (t : SessionsTable) (rand1 rand2 rand3 : ℕ → ℚ) : CreatorOutputs :=
  let t2 := fillEngagementRate t
  let dict := creatorAggDict t2
  { creator_category_perf := addRpm t2.hasRevenue t2.hasDuration rand1
      (groupAgg (fun r =>
        (lookupTier creators r.creator_id, lookupName creators r.creator_id, r.time_slot))
        dict t2.rows),
    creator_time_perf := addRpm t2.hasRevenue t2.hasDuration rand2
      (groupAgg (fun r =>
        (lookupTier creators r.creator_id, lookupName creators r.creator_id,
          r.day_of_week, r.time_slot))
        dict t2.rows),
    top_creators := if dict.isEmpty then none
      else some (List.insertionSort rpmOrd (addRpm t2.hasRevenue t2.hasDuration rand3
        (groupAgg (fun r =>
          (lookupTier creators r.creator_id, lookupName creators r.creator_id))
          dict t2.rows))) }

/-- The tables written by `create_category_performance_pivot_tables`. -/
structure CategoryOutputs where
  category_time_slot : List (AggRow (String × String) × Option PFloat)
  category_day : Option (List (AggRow (String × String) × Option PFloat))
  top_categories : List (AggRow String × Option PFloat)
deriving Repr

/-- `create_category_performance_pivot_tables` (lines 516-596): returns early
(nothing computed or written) when no category column exists, and again when
the aggregation dictionary is empty; otherwise groups by (category, time_slot),
by (category, day_of_week) when that column exists, and by category alone.
(The final sort of top_categories is a row permutation and is not modelled;
no claim concerns those tables' row order.) -/
def create_category_performance_pivot_tables (t : SessionsTable) :
    Option CategoryOutputs :=
  if !(t.hasCategory || t.hasProductCategory) then none
  else if (metricAggDict t).isEmpty then none
  else some
    { category_time_slot := addRpmOpt t.hasRevenue t.hasDuration
        (groupAgg (fun r => (r.category, r.time_slot)) (metricAggDict t) t.rows),
      category_day := if t.hasDayOfWeek then
          some (addRpmOpt t.hasRevenue t.hasDuration
            (groupAgg (fun r => (r.category, r.day_of_week)) (metricAggDict t) t.rows))
        else none,
      top_categories := addRpmOpt t.hasRevenue t.hasDuration
        (groupAgg (fun r => r.category) (metricAggDict t) t.rows) }

/-- The tables written by `create_time_slot_performance_pivot_tables`. -/
structure TimeSlotOutputs where
  time_slot_perf : List (AggRow String × Option PFloat)
  day_time_perf : Option (List (AggRow (String × String) × Option PFloat))
deriving Repr

/-- `create_time_slot_performance_pivot_tables` (lines 630-732): returns early
when the time_slot column is missing, and again when the aggregation
dictionary is empty; otherwise groups by time_slot and, when day_of_week
exists, by (day_of_week, time_slot). -/
def create_time_slot_performance_pivot_tables (t : SessionsTable) :
    Option TimeSlotOutputs :=
  if !t.hasTimeSlot then none
  else if (metricAggDict t).isEmpty then none
  else some
    { time_slot_perf := addRpmOpt t.hasRevenue t.hasDuration
        (groupAgg (fun r => r.time_slot) (metricAggDict t) t.rows),
      day_time_perf := if t.hasDayOfWeek then
          some (addRpmOpt t.hasRevenue t.hasDuration
            (groupAgg (fun r => (r.day_of_week, r.time_slot)) (metricAggDict t) t.rows))
        else none }

/-- The 15 sample creator names (generate_sample_data, lines 42-46). -/
def creatorNames : List String :=
  ["BeautyGuru", "TechExpert", "FitnessCoach", "HomeDecor", "CookingMaster",
   "GamingPro", "FashionTrends", "TravelVlogger", "DIYCrafts", "PetLovers",
   "OutdoorAdventure", "MusicProducer", "BookReviewer", "ArtCreator", "FinanceCoach"]

/-- The tier cycle (line 41). -/
def creatorTierCycle : List String := ["Top", "Mid", "Emerging"]

/-- The sample creator categories (lines 52-54). -/
def creatorCategoriesList : List String :=
  ["Beauty", "Electronics", "Health", "Home", "Kitchen", "Gaming", "Fashion",
   "Travel", "Crafts", "Pets", "Sports", "Music", "Books", "Art", "Finance"]

/-- The sample creators table (lines 48-55): ids 1..15, names from the fixed
list, tiers cycling Top/Mid/Emerging. -/
def sampleCreators : List Creator :=
  (List.range creatorNames.length).map (fun i =>
    { creator_id := i + 1,
      creator_name := creatorNames.getD i "",
      creator_tier := creatorTierCycle.getD (i % 3) "",
      creator_category := creatorCategoriesList.getD i "" })

def timeSlotNames : List String := ["Morning", "Afternoon", "Evening", "Night"]

def dayNames : List String :=
  ["Monday", "Tuesday", "Wednesday", "Thursday", "Friday", "Saturday", "Sunday"]

/-- Row `i` of the sample sessions table (generate_sample_data, lines
103-114): creator_id uniform in 1..15, a random time slot and day, duration
in 15..120, views in 100..10000, random rates and revenue. Each random draw
is an explicit parameter function of the row number. -/
def sampleRow (rc rd rv rs rw : ℕ → ℕ) (reng rconv rrev : ℕ → ℚ) (i : ℕ) :
    SessionRow :=
  { creator_id := rc i % 15 + 1,
    time_slot := timeSlotNames.getD (rs i % 4) "",
    day_of_week := dayNames.getD (rw i % 7) "",
    category := "",
    revenue := rrev i,
    duration_minutes := ((15 + rd i % 106 : ℕ) : ℚ),
    views := ((100 + rv i % 9901 : ℕ) : ℚ),
    unique_viewers := 0, likes := 0, comments := 0,
    engagement_rate := .fin (reng i),
    conversion_rate := rconv i }

/-- The sessions table of `generate_sample_data` (lines 96-114): 500 rows of
`sampleRow`; no category column. -/
def sampleSessions (rc rd rv rs rw : ℕ → ℕ) (reng rconv rrev : ℕ → ℚ) :
    SessionsTable :=
  { hasRevenue := true, hasDuration := true, hasViews := true,
    hasUniqueViewers := false, hasLikes := false, hasComments := false,
    hasEngagementRate := true, hasConversionRate := true,
    hasCategory := false, hasProductCategory := false,
    hasTimeSlot := true, hasDayOfWeek := true,
    rows := (List.range 500).map (sampleRow rc rd rv rs rw reng rconv rrev) }

/-- A sessions table whose single group has revenue 100 and duration 0. -/
def zeroDurationTable : SessionsTable :=
  { hasRevenue := true, hasDuration := true, hasViews := false,
    hasUniqueViewers := false, hasLikes := false, hasComments := false,
    hasEngagementRate := true, hasConversionRate := false,
    hasCategory := false, hasProductCategory := false,
    hasTimeSlot := true, hasDayOfWeek := true,
    rows := [{ creator_id := 1, time_slot := "Evening", day_of_week := "Friday",
               category := "", revenue := 100, duration_minutes := 0, views := 0,
               unique_viewers := 0, likes := 0, comments := 0,
               engagement_rate := .fin 0, conversion_rate := 0 }] }

/-- C2 counterexample: with both the revenue and duration columns present but
a group whose summed duration is 0, the creator pipeline's rpm is `+Inf` in
the output — there is no zero-duration guard, only a column-absence one. -/
theorem rpm_zero_duration_is_inf :
    ((create_creator_performance_pivot_tables [] zeroDurationTable
        (fun _ => 7) (fun _ => 7) (fun _ => 7)).top_creators.getD []).map
          (fun p => p.2) = [PFloat.posInf] ∧
    PFloat.posInf.isFinite = false := by
  refine ⟨?_, by decide⟩
  simp +decide [create_creator_performance_pivot_tables, zeroDurationTable,
    fillEngagementRate, creatorAggDict, groupAgg, addRpm, metricValue, aggValue,
    pfSum, padd, lookupVal, lookupTier, lookupName, List.insertionSort,
    List.orderedInsert, List.dedup, List.find?, List.filter]

/-- C2 (amended): the rpm column is always present, one value per aggregated
row. When both the summed revenue and summed duration columns exist, rpm is
their float quotient — finite whenever the summed duration is non-zero, but
`±Inf`/`NaN` when it is zero. When either column is absent, every rpm value
is a uniform random placeholder in [5, 50). -/
theorem rpm_derivation_spec {κ : Type} (hasRev hasDur : Bool) (rand : ℕ → ℚ)
    (rows : List (AggRow κ)) (hb : ∀ i, 5 ≤ rand i ∧ rand i < 50) :
    (addRpm hasRev hasDur rand rows).length = rows.length ∧
    ((hasRev && hasDur) = true →
      (addRpm hasRev hasDur rand rows).Forall (fun p =>
        p.2 = pdiv (lookupVal p.1.vals "revenue") (lookupVal p.1.vals "duration_minutes") ∧
        ∀ q d, lookupVal p.1.vals "revenue" = .fin q →
          lookupVal p.1.vals "duration_minutes" = .fin d → d ≠ 0 →
          p.2 = .fin (q / d))) ∧
    ((hasRev && hasDur) = false →
      (addRpm hasRev hasDur rand rows).Forall (fun p =>
        ∃ q, p.2 = .fin q ∧ 5 ≤ q ∧ q < 50)) := by
  refine ⟨?_, ?_, ?_⟩
  · unfold addRpm
    by_cases hc : (hasRev && hasDur) = true
    · simp [hc]
    · simp [hc, List.enum_length]
  · intro hc
    rw [List.forall_iff_forall_mem]
    intro p hp
    simp only [addRpm, hc, if_true] at hp
    rw [List.mem_map] at hp
    obtain ⟨g, _, rfl⟩ := hp
    refine ⟨rfl, ?_⟩
    intro q d hq hd hdne
    simp only [hq, hd, pdiv, hdne, if_false]
  · intro hc
    rw [List.forall_iff_forall_mem]
    intro p hp
    simp only [addRpm, hc, Bool.false_eq_true, if_false] at hp
    rw [List.mem_map] at hp
    obtain ⟨pr, _, rfl⟩ := hp
    exact ⟨rand pr.1, rfl, (hb pr.1).1, (hb pr.1).2⟩

/-- Concrete instance of `rpm_derivation_spec`: the rpm column has exactly one
value for a one-row aggregated table. -/
theorem rpm_derivation_spec_witness :
    (addRpm false true (fun _ => 7)
      [(⟨("Top", "BeautyGuru"),
         [("revenue", PFloat.fin 60), ("duration_minutes", PFloat.fin 30)]⟩ :
        AggRow (String × String))]).length = 1 :=
  (rpm_derivation_spec false true (fun _ => 7)
    [⟨("Top", "BeautyGuru"),
      [("revenue", PFloat.fin 60), ("duration_minutes", PFloat.fin 30)]⟩]
    (fun _ => by norm_num)).1.trans rfl

/-- A sessions table with only dimension columns: every recognized metric
column is absent. -/
def noMetricsTable : SessionsTable :=
  { hasRevenue := false, hasDuration := false, hasViews := false,
    hasUniqueViewers := false, hasLikes := false, hasComments := false,
    hasEngagementRate := false, hasConversionRate := false,
    hasCategory := true, hasProductCategory := false,
    hasTimeSlot := true, hasDayOfWeek := true,
    rows := [{ creator_id := 1, time_slot := "Morning", day_of_week := "Monday",
               category := "Beauty", revenue := 0, duration_minutes := 0, views := 0,
               unique_viewers := 0, likes := 0, comments := 0,
               engagement_rate := .fin 0, conversion_rate := 0 }] }

/-- C9 counterexample: on a sessions table with no recognized metric column,
`create_creator_performance_pivot_tables` does not skip — it injects a default
engagement_rate of 0.05, making its aggregation dictionary non-empty, and
computes and writes its grouped tables anyway. -/
theorem creator_tables_not_skipped_without_metrics :
    creatorAggDict (fillEngagementRate noMetricsTable) ≠ [] ∧
    (create_creator_performance_pivot_tables [] noMetricsTable
      (fun _ => 7) (fun _ => 7) (fun _ => 7)).creator_category_perf ≠ [] ∧
    (create_creator_performance_pivot_tables [] noMetricsTable
      (fun _ => 7) (fun _ => 7) (fun _ => 7)).top_creators ≠ none := by
  refine ⟨?_, ?_, ?_⟩
  · have hl : (creatorAggDict (fillEngagementRate noMetricsTable)).length = 1 := rfl
    intro h
    rw [h] at hl
    simp at hl
  · have hl : (create_creator_performance_pivot_tables [] noMetricsTable
        (fun _ => 7) (fun _ => 7) (fun _ => 7)).creator_category_perf.length = 1 := rfl
    intro h
    rw [h] at hl
    simp at hl
  · exact Option.ne_none_iff_isSome.mpr rfl

/-- C9 (amended): in the category and time-slot pivot functions, an empty
aggregation dictionary skips the whole analysis (nothing computed, nothing
written, no error); in the creator pivot function the dictionary is never
empty, because a default engagement_rate column is injected first. -/
theorem empty_agg_dict_skips_aggregation (t : SessionsTable)
    (h : metricAggDict t = []) :
    create_category_performance_pivot_tables t = none ∧
    create_time_slot_performance_pivot_tables t = none ∧
    creatorAggDict (fillEngagementRate t) ≠ [] := by
  have hE : (fillEngagementRate t).hasEngagementRate = true := by
    unfold fillEngagementRate
    by_cases h1 : t.hasEngagementRate
    · simp [h1]
    · by_cases h2 : t.hasLikes && t.hasComments && t.hasViews <;> simp [h1, h2]
  refine ⟨?_, ?_, ?_⟩
  · unfold create_category_performance_pivot_tables
    rw [h]
    simp
  · unfold create_time_slot_performance_pivot_tables
    rw [h]
    simp
  · intro hnil
    unfold creatorAggDict at hnil
    rw [hE] at hnil
    simp [List.append_eq_nil] at hnil

/-- Concrete instance of `empty_agg_dict_skips_aggregation` on a table with
no metric columns. -/
theorem empty_agg_dict_skips_aggregation_witness :
    create_category_performance_pivot_tables noMetricsTable = none ∧
    create_time_slot_performance_pivot_tables noMetricsTable = none ∧
    creatorAggDict (fillEngagementRate noMetricsTable) ≠ [] :=
  empty_agg_dict_skips_aggregation noMetricsTable (by rfl)

theorem dedup_length_le_of_subset {α : Type} [DecidableEq α] (l u : List α)
    (hsub : ∀ x ∈ l, x ∈ u) : l.dedup.length ≤ u.length := by
  have h1 : l.toFinset ⊆ u.toFinset := by
    intro x hx
    rw [List.mem_toFinset] at hx ⊢
    exact hsub x hx
  calc l.dedup.length = l.toFinset.card := (List.card_toFinset l).symm
    _ ≤ u.toFinset.card := Finset.card_le_card h1
    _ ≤ u.length := List.toFinset_card_le u

/-- The 15 possible (tier, name) group keys of the sample creators. -/
def sampleKeys : List (String × String) :=
  sampleCreators.map (fun c => (c.creator_tier, c.creator_name))

theorem sample_key_mem (n : ℕ) (hn : n < 15) :
    (lookupTier sampleCreators (n + 1), lookupName sampleCreators (n + 1)) ∈ sampleKeys := by
  interval_cases n <;> decide

set_option maxRecDepth 4000

/-- C7: on the synthetic sample dataset (15 creators, 99 products, 1000
orders, 500 sessions — creator ids drawn uniformly from 1..15), whatever the
random draws, the top_creators table is produced, has at most 15 rows (one
per distinct (tier, name) key), and is sorted descending by rpm; the rpm
column is always present, so the sort-by-revenue fallback is never needed. -/
theorem top_creators_sample_bounded_sorted (rc rd rv rs rw : ℕ → ℕ)
    (reng rconv rrev : ℕ → ℚ) (rand1 rand2 rand3 : ℕ → ℚ) :
    ∃ out, (create_creator_performance_pivot_tables sampleCreators
        (sampleSessions rc rd rv rs rw reng rconv rrev)
        rand1 rand2 rand3).top_creators = some out ∧
      out.length ≤ 15 ∧ List.Sorted rpmOrd out := by
  refine ⟨List.insertionSort rpmOrd (addRpm true true rand3
      (groupAgg (fun r => (lookupTier sampleCreators r.creator_id,
        lookupName sampleCreators r.creator_id))
        (creatorAggDict (sampleSessions rc rd rv rs rw reng rconv rrev))
        (sampleSessions rc rd rv rs rw reng rconv rrev).rows)), ?_, ?_, ?_⟩
  · have hE : (sampleSessions rc rd rv rs rw reng rconv rrev).hasEngagementRate
        = true := rfl
    have hfill : fillEngagementRate (sampleSessions rc rd rv rs rw reng rconv rrev)
        = sampleSessions rc rd rv rs rw reng rconv rrev := by
      unfold fillEngagementRate
      rw [hE]
      simp
    have hdict : (creatorAggDict
        (sampleSessions rc rd rv rs rw reng rconv rrev)).isEmpty = false := rfl
    have hR : (sampleSessions rc rd rv rs rw reng rconv rrev).hasRevenue
        = true := rfl
    have hD : (sampleSessions rc rd rv rs rw reng rconv rrev).hasDuration
        = true := rfl
    simp only [create_creator_performance_pivot_tables, hfill, hdict, hR, hD,
      Bool.false_eq_true, if_false]
  · rw [List.length_insertionSort]
    have hlen : (addRpm true true rand3
        (groupAgg (fun r => (lookupTier sampleCreators r.creator_id,
          lookupName sampleCreators r.creator_id))
          (creatorAggDict (sampleSessions rc rd rv rs rw reng rconv rrev))
          (sampleSessions rc rd rv rs rw reng rconv rrev).rows)).length
        = (((sampleSessions rc rd rv rs rw reng rconv rrev).rows.map
            (fun r => (lookupTier sampleCreators r.creator_id,
              lookupName sampleCreators r.creator_id))).dedup).length := by
      unfold addRpm groupAgg
      rw [if_pos (by rfl)]
      simp only [List.length_map]
    rw [hlen]
    have hkeys : ∀ x ∈ (sampleSessions rc rd rv rs rw reng rconv rrev).rows.map
        (fun r => (lookupTier sampleCreators r.creator_id,
          lookupName sampleCreators r.creator_id)), x ∈ sampleKeys := by
      intro x hx
      rw [List.mem_map] at hx
      obtain ⟨r, hr, rfl⟩ := hx
      have hrows : (sampleSessions rc rd rv rs rw reng rconv rrev).rows
          = (List.range 500).map (sampleRow rc rd rv rs rw reng rconv rrev) := rfl
      rw [hrows, List.mem_map] at hr
      obtain ⟨i, _, rfl⟩ := hr
      have hcid : (sampleRow rc rd rv rs rw reng rconv rrev i).creator_id
          = rc i % 15 + 1 := rfl
      rw [hcid]
      exact sample_key_mem (rc i % 15) (Nat.mod_lt _ (by norm_num))
    exact le_trans (dedup_length_le_of_subset _ _ hkeys) (by decide)
  · exact List.sorted_insertionSort rpmOrd _

/-- A Python file error (FileNotFoundError / read failure). -/
inductive LoadErr
  | fileNotFound
deriving DecidableEq, Repr

/-- The tuple of tables the loader returns: provenance plus row counts of the
four main tables (sample counts: 15 creators, 99 products, 1000 orders,
500 sessions — generate_sample_data, lines 48-114). -/
structure LoadedTables where
  fromSample : Bool
  creatorsCount : ℕ
  productsCount : ℕ
  ordersCount : ℕ
  sessionsCount : ℕ
deriving DecidableEq, Repr

/-- Availability of the three external sources read by the loader. -/
structure SourceFiles where
  olistOk : Bool
  summerOk : Bool
  youtubeOk : Bool
deriving DecidableEq, Repr

/-- `generate_sample_data` (generate_pivot_tables.py, lines 33-155): builds
the synthetic tables, but reads YouTube.csv UNGUARDED at line 123 — when that
file is missing the function raises instead of degrading. -/
def generate_sample_data (fs : SourceFiles) : Except LoadErr LoadedTables :=
  if fs.youtubeOk then .ok ⟨true, 15, 99, 1000, 500⟩ else .error .fileNotFound

/-- `load_sample_data` (lines 392-409): delegates to `generate_sample_data`. -/
def load_sample_data (fs : SourceFiles) : Except LoadErr LoadedTables :=
  generate_sample_data fs

/-- `load_real_data` (lines 157-390): per-source try/except blocks fall back
to `load_sample_data` (lines 177-180, 186-189); the YouTube read of the real
path is guarded with a dummy-data fallback (lines 196-205); the outer except
(lines 387-390) calls `load_sample_data` with no further handler, so an error
raised inside the fallback itself propagates to the caller. `real` stands for
the tuple assembled from the successfully read files. -/
def load_real_data (fs : SourceFiles) (real : LoadedTables) :
    Except LoadErr LoadedTables :=
  match (if !fs.olistOk then load_sample_data fs
         else if !fs.summerOk then load_sample_data fs
         else .ok real : Except LoadErr LoadedTables) with
  | .ok t => .ok t
  | .error _ => load_sample_data fs

/-- C3: with the Olist files unreadable and YouTube.csv missing, the loader
raises a FileNotFoundError instead of returning a tuple — the synthetic
fallback itself reads YouTube.csv unguarded, and the outer exception handler
re-enters it unprotected. With all sources available the real tuple is
returned, and with only the Olist files missing the loader does degrade to
the sample tuple. -/
theorem load_real_data_fatal_when_fallback_fails :
    load_real_data ⟨false, true, false⟩ ⟨false, 3, 3, 3, 3⟩
        = .error .fileNotFound ∧
    load_real_data ⟨true, true, true⟩ ⟨false, 3, 3, 3, 3⟩
        = .ok ⟨false, 3, 3, 3, 3⟩ ∧
    load_real_data ⟨false, true, true⟩ ⟨false, 3, 3, 3, 3⟩
        = .ok ⟨true, 15, 99, 1000, 500⟩ :=
  ⟨rfl, rfl, rfl⟩

/-- A raw Olist product row: id and (possibly missing) source category name. -/
structure OlistProduct where
  product_id : String
  product_category_name : Option String
deriving DecidableEq, Repr

/-- A row of the loader's products table. -/
structure ProductRec where
  product_id : String
  product_category : Option String
deriving DecidableEq, Repr

/-- The products table of `load_real_data` (lines 213-218 join the category
translation with `how='left'`; lines 325-332 select and rename). There is no
`fillna` on the product category: a source category missing from the
translation table (or absent altogether) stays null. -/
def mkProducts (translation : List (String × String))
    (olist : List OlistProduct) : List ProductRec :=
  olist.map (fun p =>
    ⟨p.product_id,
     p.product_category_name.bind (fun name =>
       (translation.find? (fun q => q.1 = name)).map (fun q => q.2))⟩)

/-- A creators-table row after the left joins of lines 273-319: category and
tier may be missing when the seller had no order items. -/
structure CreatorRec where
  creator_id : String
  creator_category : Option String
  creator_tier : Option String
deriving DecidableEq, Repr

/-- The creators table before `fillna` (lines 273-319): one row per seller,
left-joined with the seller's most-sold category and sales-volume tier. -/
def mkCreatorsRaw (sellerIds : List String) (topCats tiers : List (String × String)) :
    List CreatorRec :=
  sellerIds.map (fun sid =>
    ⟨sid, (topCats.find? (fun p => p.1 = sid)).map (fun p => p.2),
     (tiers.find? (fun p => p.1 = sid)).map (fun p => p.2)⟩)

/-- A creators-table row after `fillna` — category and tier always present. -/
structure CreatorFilled where
  creator_id : String
  creator_category : String
  creator_tier : String
deriving DecidableEq, Repr

/-- Lines 321-323: `fillna('Other')` on the category and `fillna('Emerging')`
on the tier. -/
def fillCreators (l : List CreatorRec) : List CreatorFilled :=
  l.map (fun c =>
    ⟨c.creator_id, c.creator_category.getD "Other", c.creator_tier.getD "Emerging"⟩)

/-- `get_creator_category` (lines 359-364): the creator's category when the
id is known, "Other" otherwise; used to fill the sessions table's
product_category column (line 364). -/
def get_creator_category (creators : List CreatorFilled) (cid : String) : String :=
  match creators.find? (fun c => c.creator_id = cid) with
  | some c => c.creator_category
  | none => "Other"

/-- C5 counterexample: a product whose source category is absent from the
translation table gets a null category in the loader's products table — the
left join has no `fillna('Other')`, so category totality fails for products. -/
theorem product_category_left_null :
    (mkProducts [("beleza_saude", "health_beauty")]
        [⟨"p1", some "moveis_decoracao"⟩, ⟨"p2", none⟩]).map ProductRec.product_category
      = [none, none] ∧
    (none : Option String) ≠ some "Other" := by
  decide

/-- C5 (amended): creator categories are total — after the fillna, every
creator's category is "Other" or a value from the source top-category join,
and an unmatched join always yields "Other" (similarly "Emerging" for the
tier); session categories are total because `get_creator_category` returns
"Other" for unknown creator ids. Product categories, by contrast, are left
null when unmapped (see the counterexample). -/
theorem creator_session_category_total (sellerIds : List String)
    (topCats tiers : List (String × String)) (c : CreatorFilled)
    (hc : c ∈ fillCreators (mkCreatorsRaw sellerIds topCats tiers))
    (creators : List CreatorFilled) (cid : String)
    (hmiss : creators.find? (fun k => k.creator_id = cid) = none) :
    (c.creator_category = "Other" ∨ ∃ p ∈ topCats, p.2 = c.creator_category) ∧
    (c.creator_tier = "Emerging" ∨ ∃ p ∈ tiers, p.2 = c.creator_tier) ∧
    get_creator_category creators cid = "Other" := by
  refine ⟨?_, ?_, ?_⟩
  · simp only [fillCreators, mkCreatorsRaw, List.map_map, List.mem_map,
      Function.comp] at hc
    obtain ⟨sid, _, rfl⟩ := hc
    cases hfind : topCats.find? (fun p => p.1 = sid) with
    | none => left; simp [hfind]
    | some p =>
        right
        refine ⟨p, List.mem_of_find?_eq_some hfind, ?_⟩
        simp [hfind]
  · simp only [fillCreators, mkCreatorsRaw, List.map_map, List.mem_map,
      Function.comp] at hc
    obtain ⟨sid, _, rfl⟩ := hc
    cases hfind : tiers.find? (fun p => p.1 = sid) with
    | none => left; simp [hfind]
    | some p =>
        right
        refine ⟨p, List.mem_of_find?_eq_some hfind, ?_⟩
        simp [hfind]
  · unfold get_creator_category
    rw [hmiss]

/-- Concrete instance of `creator_session_category_total`: a seller with no
top-category match gets "Other", and an unknown session creator id
resolves to "Other". -/
theorem creator_session_category_total_witness :
    get_creator_category [] "c9" = "Other" :=
  (creator_session_category_total ["s1", "s2"] [("s1", "health_beauty")] []
    ⟨"s2", "Other", "Emerging"⟩ (by decide) [] "c9" (by decide)).2.2

end AmazonLive
